import Mathlib

/-!
Verification development for the ExternalCue audio-routing core.

The Rust source under verification consists of two backend implementations of
one `AudioBackend` interface:

* `src/audio/wasapi_backend.rs` — device enumeration (`enum_devices`,
  `enumerate_devices`), exclusive-mode format negotiation
  (`open_device_exclusive`), the `start` orchestration (ordinal resolution,
  device opening, rate validation, ring-buffer allocation, thread spawning),
  the capture-thread sample conversion, and the render-thread mixing loop.
* `src/audio/cpal_backend.rs` — the cross-platform variant: enumeration with
  name de-duplication, the `i / 2` ordinal mapping in `start`, and the
  f32 output mixing callback.

Embedding conventions:

* Audio samples (Rust `f32`) are embedded as exact rationals (`ℚ`).  The
  discrete facts proved here (which integer a converted sample becomes, which
  samples are popped, which branch of the format dispatch runs) are unchanged
  by this idealisation, and the floating-point rounding of `f32` is not what
  any claim is about.
* Rust's `as i16` / `as i32` casts on floats truncate toward zero and
  saturate; this is embedded as `ratTrunc` composed with explicit
  saturation bounds.
* The lock-free ring buffer (`ringbuf::HeapRb`) is embedded as a FIFO list:
  `pop` on the consumer end is `popSample`, returning `none` on empty.
* The platform (WASAPI / cpal host) is an oracle supplied as fields of an
  environment structure: the list of physical devices and the outcome of
  opening/negotiating each device.  `start` is embedded as a pure function
  from that environment to a result together with a trace of the
  resource-relevant events it performs (device opened, client released,
  transport allocated, thread spawned), in program order.
* Rust's stable `sort_by` on the entry name is embedded as Mathlib's
  (stable) insertion sort; Rust compares `String`s by UTF-8 bytes, which
  orders exactly like Lean's code-point order on `String`.
-/

namespace ExternalCue

/-- Canonical float samples of the Rust code (`f32`), embedded as exact
rationals. -/
abbrev Sample : Type := ℚ

/-- Negotiated stream format, from `struct FormatInfo` in
`wasapi_backend.rs` (channels, sample rate, bits per sample, float flag). -/
structure FormatInfo where
  channels : Nat
  sample_rate : Nat
  bits_per_sample : Nat
  is_float : Bool
deriving DecidableEq

/-- Truncation toward zero, the rounding mode of Rust's float-to-int `as`
cast. -/
def ratTrunc (q : Sample) : Int :=
  if 0 ≤ q then ⌊q⌋ else ⌈q⌉

/-- Rust `as i16` on a float: truncate toward zero, saturating to the i16
range. -/
def rustCastI16 (q : Sample) : Int :=
  max (-32768) (min 32767 (ratTrunc q))

/-- Rust `as i32` on a float: truncate toward zero, saturating to the i32
range. -/
def rustCastI32 (q : Sample) : Int :=
  max (-2147483648) (min 2147483647 (ratTrunc q))

/-- Rust `x.clamp(-1.0, 1.0)` from the render thread's int conversion
branches. -/
def clamp1 (q : Sample) : Sample :=
  max (-1) (min 1 q)

/-- The render thread's 16-bit conversion of one mixed sample:
`let mixed = (a + b).clamp(-1.0, 1.0); (mixed * 32767.0) as i16`. -/
def writeI16 (x : Sample) : Int :=
  rustCastI16 (clamp1 x * 32767)

/-- The render thread's 32-bit-int conversion of one mixed sample:
`let mixed = (a + b).clamp(-1.0, 1.0); (mixed * 2147483647.0) as i32`. -/
def writeI32 (x : Sample) : Int :=
  rustCastI32 (clamp1 x * 2147483647)

/-- Consumer-end `pop` of the ring buffer: `None` on underrun (the buffer is
left as is), otherwise the oldest sample is removed and returned. -/
def popSample : List Sample → Option Sample × List Sample
  | [] => (none, [])
  | x :: xs => (some x, xs)

/-- The render thread's per-frame read of one input, from
`for i in 0..in_a_channels { frame_a[i] = if use_a { cons_a.pop().unwrap_or(0.0) }
else { let _ = cons_a.pop(); 0.0 }; }`: one pop per input channel; the popped
value is used when the gate is set, silence is substituted (but the pop still
happens) when it is unset. -/
def readFrame (gate : Bool) : Nat → List Sample → List Sample × List Sample
  | 0, q => ([], q)
  | n + 1, q =>
    let (v, q1) := popSample q
    let s := if gate then v.getD 0 else 0
    let (rest, q2) := readFrame gate n q1
    (s :: rest, q2)

/-- One input's contribution to output channel `ch`, from
`let a = if in_a_channels == 0 { 0.0 } else if ch < in_a_channels { frame_a[ch] }
else { frame_a[0] };`. -/
def chanContrib (nch : Nat) (frame : List Sample) (ch : Nat) : Sample :=
  if nch = 0 then 0
  else if ch < nch then frame.getD ch 0
  else frame.getD 0 0

/-- Mix one output frame in the WASAPI render thread: read one frame from
each input's consumer, then sum the two per-channel contributions for every
output channel. -/
def mixFrame (useA useB : Bool) (nchA nchB outCh : Nat) (qA qB : List Sample) :
    List Sample × List Sample × List Sample :=
  let (fa, qA1) := readFrame useA nchA qA
  let (fb, qB1) := readFrame useB nchB qB
  ((List.range outCh).map fun ch => chanContrib nchA fa ch + chanContrib nchB fb ch,
    qA1, qB1)

/-- The `for f in 0..frames_avail` loop of the render thread: mix the given
number of frames, threading both consumer queues through; the gate values
`useA`, `useB` are fixed for the whole buffer (they were loaded before the
loop). -/
def mixBufferFrames (useA useB : Bool) (nchA nchB outCh : Nat) :
    Nat → List Sample → List Sample → List (List Sample) × List Sample × List Sample
  | 0, qA, qB => ([], qA, qB)
  | n + 1, qA, qB =>
    let (fr, qA1, qB1) := mixFrame useA useB nchA nchB outCh qA qB
    let (rest, qA2, qB2) := mixBufferFrames useA useB nchA nchB outCh n qA1 qB1
    (fr :: rest, qA2, qB2)

/-- What the render thread wrote into the device buffer in one iteration. -/
inductive RenderWrite
  | wroteFloat (xs : List Sample)
  | wroteI16 (xs : List Int)
  | wroteI32 (xs : List Int)
  | wroteNothing
deriving DecidableEq

/-- One iteration of the WASAPI render loop after `GetBuffer` succeeded with
`frames` frames available: dispatch on the negotiated output format
(f32 / i16 / i32), mix that many frames and convert each mixed sample to the
native format; a format matching no branch writes nothing and leaves both
consumers untouched.  The final `Bool` records that `ReleaseBuffer` runs
unconditionally after the dispatch. -/
def renderWritesWasapi (fmt : FormatInfo) (useA useB : Bool) (nchA nchB frames : Nat)
    (qA qB : List Sample) : RenderWrite × List Sample × List Sample × Bool :=
  let ch := fmt.channels
  if fmt.is_float && fmt.bits_per_sample == 32 then
    let (frs, qA1, qB1) := mixBufferFrames useA useB nchA nchB ch frames qA qB
    (.wroteFloat frs.flatten, qA1, qB1, true)
  else if !fmt.is_float && fmt.bits_per_sample == 16 then
    let (frs, qA1, qB1) := mixBufferFrames useA useB nchA nchB ch frames qA qB
    (.wroteI16 (frs.flatten.map writeI16), qA1, qB1, true)
  else if !fmt.is_float && fmt.bits_per_sample == 32 then
    let (frs, qA1, qB1) := mixBufferFrames useA useB nchA nchB ch frames qA qB
    (.wroteI32 (frs.flatten.map writeI32), qA1, qB1, true)
  else
    (.wroteNothing, qA, qB, true)

/-- One frame of the cpal f32 output callback: one pop per input per frame
(`let sample_a = if use_a { cons_a.pop().unwrap_or(0.0) } else
{ let _ = cons_a.pop(); 0.0 };` and the same for B), the sum written to every
channel of the frame. -/
def cpalMixFrame (useA useB : Bool) (outCh : Nat) (qA qB : List Sample) :
    List Sample × List Sample × List Sample :=
  let (va, qA1) := popSample qA
  let (vb, qB1) := popSample qB
  let sa := if useA then va.getD 0 else 0
  let sb := if useB then vb.getD 0 else 0
  (List.replicate outCh (sa + sb), qA1, qB1)

/-- One iteration of the render loop run against a time-indexed gate
environment: `envA t`, `envB t` give the value an atomic load of the
respective gate returns at frame-time `t`.  The code performs exactly one
load of each gate per buffer iteration (`let use_a = listen_a.load(...)`
before the frame loop), at the time `t0` the buffer processing begins, and
uses that value for every frame of the buffer. -/
def renderIterWasapiGates (envA envB : Nat → Bool) (t0 : Nat)
    (nchA nchB outCh frames : Nat) (qA qB : List Sample) :
    List (List Sample) × List Sample × List Sample :=
  mixBufferFrames (envA t0) (envB t0) nchA nchB outCh frames qA qB

/-- Modelled from the spec: the render pipeline re-reads each gate at every
frame it mixes, so the frame mixed at time `t` uses `envA t` and `envB t`.
This is the per-frame-read semantics the spec asserts; it is compared with
`renderIterWasapiGates`, the embedding of the code. -/
def mixBufferPerFrameGates (envA envB : Nat → Bool) (nchA nchB outCh : Nat) :
    Nat → Nat → List Sample → List Sample → List (List Sample) × List Sample × List Sample
  | _, 0, qA, qB => ([], qA, qB)
  | t, n + 1, qA, qB =>
    let (fr, qA1, qB1) := mixFrame (envA t) (envB t) nchA nchB outCh qA qB
    let (rest, qA2, qB2) := mixBufferPerFrameGates envA envB nchA nchB outCh (t + 1) n qA1 qB1
    (fr :: rest, qA2, qB2)

/-- One native capture packet as handed over by `IAudioCaptureClient::GetBuffer`:
a frame count, the platform's silent flag, and the raw memory viewed under each
of the three typed reinterpretations the capture thread can apply to it. -/
structure Packet where
  frames : Nat
  silent : Bool
  asF32 : List Sample
  asI16 : List Int
  asI32 : List Int

/-- The samples the capture thread pushes to its Transport for one packet:
a silent packet pushes `frames * channels` zeros; otherwise the conversion
dispatches on the negotiated format (f32 passthrough, i16 divided by 32768,
i32 divided by 2^31), and a format matching no branch pushes nothing. -/
def capturePushes (fmt : FormatInfo) (p : Packet) : List Sample :=
  let total := p.frames * fmt.channels
  if p.silent then
    List.replicate total 0
  else if fmt.is_float && fmt.bits_per_sample == 32 then
    p.asF32.take total
  else if !fmt.is_float && fmt.bits_per_sample == 16 then
    (p.asI16.take total).map fun s => (s : Sample) / 32768
  else if !fmt.is_float && fmt.bits_per_sample == 32 then
    (p.asI32.take total).map fun s => (s : Sample) / 2147483648
  else
    []

/-- Outcome of `IAudioClient::IsFormatSupported` for one candidate:
`S_OK` (supported as-is), `S_FALSE` with a non-null closest match, or any
other result (rejection). -/
inductive SupportResult
  | ok
  | closest (f : FormatInfo)
  | no
deriving DecidableEq

/-- An exclusive-mode device as the negotiation sees it: its mix format
(`GetMixFormat`, already parsed) and its answer to each `IsFormatSupported`
query. -/
structure ExclusiveDevice where
  mix : FormatInfo
  supports : FormatInfo → SupportResult

/-- Result of exclusive-mode format negotiation. -/
inductive NegotiationResult
  | negotiated (f : FormatInfo)
  | unsupported
deriving DecidableEq

/-- The candidate space of `open_device_exclusive` step 2, in loop order:
sample rates `[native, 48000, 44100]` outer, `[(32, float), (24, int),
(16, int)]` inner, channel count fixed at the device's native count; a
candidate whose block align `(bits / 8) * channels` is zero is skipped
(`continue`). -/
def exclusiveCandidates (mix : FormatInfo) : List FormatInfo :=
  (([mix.sample_rate, 48000, 44100].flatMap fun r =>
    [(32, true), (24, false), (16, false)].map fun p =>
      FormatInfo.mk mix.channels r p.1 p.2).filter
    fun c => c.bits_per_sample / 8 * c.channels ≠ 0)

/-- The candidate loop of `open_device_exclusive`: accept the first candidate
supported as-is (keeping the candidate) or via closest match (keeping the
closest match); exhausting the list fails with the unsupported-format error
(`0x88890008`, AUDCLNT_E_UNSUPPORTED_FORMAT). -/
def tryCandidates (dev : ExclusiveDevice) : List FormatInfo → NegotiationResult
  | [] => .unsupported
  | c :: rest =>
    match dev.supports c with
    | .ok => .negotiated c
    | .closest f => .negotiated f
    | .no => tryCandidates dev rest

/-- Format selection of `open_device_exclusive`: first the device's own mix
format (as-is, then closest match), then the fixed candidate space. -/
def openDeviceExclusiveFmt (dev : ExclusiveDevice) : NegotiationResult :=
  match dev.supports dev.mix with
  | .ok => .negotiated dev.mix
  | .closest f => .negotiated f
  | .no => tryCandidates dev (exclusiveCandidates dev.mix)

/-- Whether the device accepts a candidate at all (as-is or via closest
match). -/
def acceptsFmt (dev : ExclusiveDevice) (c : FormatInfo) : Bool :=
  match dev.supports c with
  | .no => false
  | _ => true

/-- The format actually kept for an accepted candidate: the candidate itself
on `S_OK`, the device's closest match on `S_FALSE`. -/
def acceptedFormat (dev : ExclusiveDevice) (c : FormatInfo) : FormatInfo :=
  match dev.supports c with
  | .closest f => f
  | _ => c

/-- Device access mode, from `enum Mode` in `backend.rs`. -/
inductive Mode
  | shared
  | exclusive
deriving DecidableEq

/-- One enumerated logical device, from `struct DeviceEntry` in
`backend.rs`. -/
structure DeviceEntry where
  name : String
  device_id : Option String
  mode : Mode
  is_input : Bool
  is_output : Bool
deriving DecidableEq

/-- One physical endpoint as the WASAPI enumerator reports it: its MMDevice
id and its friendly display name. -/
structure PhysDevice where
  id : String
  friendly : String
deriving DecidableEq

/-- The two entries `enum_devices` pushes for one physical device: the
Shared entry first, then the Exclusive entry, both carrying the same
`device_id` and the same capability flags, names decorated with the
`(SHARED)` / `(EXCLUSIVE)` suffixes. -/
def deviceEntries (d : PhysDevice) (isIn isOut : Bool) : List DeviceEntry :=
  [⟨d.friendly ++ " (SHARED)", some d.id, .shared, isIn, isOut⟩,
   ⟨d.friendly ++ " (EXCLUSIVE)", some d.id, .exclusive, isIn, isOut⟩]

/-- `WasapiBackend::enum_devices` for one data-flow direction: every device
of the collection contributes its Shared/Exclusive pair in order. -/
def enumFlowDevices (devs : List PhysDevice) (isIn isOut : Bool) : List DeviceEntry :=
  devs.flatMap fun d => deviceEntries d isIn isOut

/-- The sort key of `out.sort_by(|a, b| a.name.cmp(&b.name))`: entry name
order.  Rust compares `String`s by UTF-8 bytes; UTF-8 byte order coincides
with code-point order, which is Lean's `String` order. -/
def entryLe (a b : DeviceEntry) : Prop :=
  a.name ≤ b.name

instance : DecidableRel entryLe :=
  fun a b => inferInstanceAs (Decidable (a.name ≤ b.name))

instance : IsTotal DeviceEntry entryLe :=
  ⟨fun a b => le_total a.name b.name⟩

instance : IsTrans DeviceEntry entryLe :=
  ⟨fun _ _ _ h1 h2 => le_trans h1 h2⟩

/-- The WASAPI platform as `enumerate_devices` and `start` consult it:
the active render and capture endpoint collections, and the outcome of
opening a device by id in a given mode (`GetDevice` + `Activate` + format
negotiation + `Initialize`): `some` negotiated format on success, `none` on
failure. -/
structure WasapiEnv where
  renderDevices : List PhysDevice
  captureDevices : List PhysDevice
  negotiate : String → Mode → Option FormatInfo

/-- `WasapiBackend::enumerate_devices`: render entries, then capture
entries, sorted by display name (`sort_by` is a stable sort, embedded as
insertion sort). -/
def wasapiEnumerate (env : WasapiEnv) : List DeviceEntry :=
  List.insertionSort entryLe
    (enumFlowDevices env.renderDevices false true ++
      enumFlowDevices env.captureDevices true false)

/-- The resource-relevant actions `start` performs, in program order. -/
inductive Event
  | opened (id : String)
  | releasedClient (id : String)
  | transportAlloc
  | threadSpawn
deriving DecidableEq

/-- Which input a rate-mismatch error names. -/
inductive InputSel
  | A
  | B
deriving DecidableEq

/-- The failure cases of `WasapiBackend::start`, all `BackendError::StartError`
strings in the source, kept as structured data here: the message of
`rateMismatch` is `"Input {which} sample rate mismatch ({inputRate} Hz vs
output {outputRate} Hz)"`. -/
inductive StartErr
  | indexOutOfRange
  | noOutputSelected
  | outputHasNoId
  | openFailed (id : String)
  | rateMismatch (which : InputSel) (inputRate outputRate : Nat)
deriving DecidableEq

/-- The `get_entry` closure of `start`: `None` ordinal resolves to no device;
an ordinal beyond the enumerated list is the "Device index out of range"
error. -/
def getEntry (entries : List DeviceEntry) : Option Nat → Except StartErr (Option DeviceEntry)
  | none => .ok none
  | some i =>
    match entries[i]? with
    | some e => .ok (some e)
    | none => .error .indexOutOfRange

/-- Opening an optional input inside `start`: a missing id (not connected, or
an entry without `device_id`) opens nothing; an open failure propagates via
`?` — note no cleanup event accompanies it. -/
def openOptInput (env : WasapiEnv) (id? : Option String) (mode : Mode) :
    Except StartErr (Option FormatInfo × List Event) :=
  match id? with
  | none => .ok (none, [])
  | some id =>
    match env.negotiate id mode with
    | none => .error (.openFailed id)
    | some f => .ok (some f, [Event.opened id])

/-- The rate-validation check of `start` for one input: fails when the
input's negotiated sample rate differs from the output's, or the input has
zero channels. -/
def rateCheck (outRate : Nat) (which : InputSel) : Option FormatInfo → Option StartErr
  | none => none
  | some f =>
    if f.sample_rate ≠ outRate ∨ f.channels = 0 then
      some (.rateMismatch which f.sample_rate outRate)
    else
      none

/-- `WasapiBackend::start`, embedded step for step with its event trace:
resolve the three ordinals against a fresh enumeration; require an output
entry with a device id; open the output, then input A, then input B (an input
open failure returns at once, releasing nothing); validate input rates
against the output rate (a mismatch releases the output's audio client and
returns); only then allocate the two ring buffers and spawn the capture
threads (one per connected input) and the render thread. -/
def startWasapi (env : WasapiEnv) (inputA inputB output : Option Nat) :
    Except StartErr Unit × List Event :=
  let entries := wasapiEnumerate env
  match getEntry entries inputA with
  | .error e => (.error e, [])
  | .ok inA =>
    match getEntry entries inputB with
    | .error e => (.error e, [])
    | .ok inB =>
      match getEntry entries output with
      | .error e => (.error e, [])
      | .ok none => (.error .noOutputSelected, [])
      | .ok (some outEntry) =>
        match outEntry.device_id with
        | none => (.error .outputHasNoId, [])
        | some outId =>
          match env.negotiate outId outEntry.mode with
          | none => (.error (.openFailed outId), [])
          | some outFmt =>
            let tr1 := [Event.opened outId]
            match openOptInput env (inA.bind fun e => e.device_id)
                ((inA.map fun e => e.mode).getD .exclusive) with
            | .error e => (.error e, tr1)
            | .ok (fmtA?, trA) =>
              match openOptInput env (inB.bind fun e => e.device_id)
                  ((inB.map fun e => e.mode).getD .exclusive) with
              | .error e => (.error e, tr1 ++ trA)
              | .ok (fmtB?, trB) =>
                let tr2 := tr1 ++ trA ++ trB
                match rateCheck outFmt.sample_rate .A fmtA? with
                | some e => (.error e, tr2 ++ [Event.releasedClient outId])
                | none =>
                  match rateCheck outFmt.sample_rate .B fmtB? with
                  | some e => (.error e, tr2 ++ [Event.releasedClient outId])
                  | none =>
                    let tr3 := tr2 ++ [Event.transportAlloc, Event.transportAlloc]
                    let trSpawnA := if fmtA?.isSome then [Event.threadSpawn] else []
                    let trSpawnB := if fmtB?.isSome then [Event.threadSpawn] else []
                    (.ok (), tr3 ++ trSpawnA ++ trSpawnB ++ [Event.threadSpawn])

/-- Event classifiers for trace counting. -/
def isOpened : Event → Bool
  | .opened _ => true
  | _ => false

def isReleasedClient : Event → Bool
  | .releasedClient _ => true
  | _ => false

def isTransportAlloc : Event → Bool
  | .transportAlloc => true
  | _ => false

def isThreadSpawn : Event → Bool
  | .threadSpawn => true
  | _ => false

/-- One device as the cpal host reports it: a friendly name and which
default configs (input/output) it offers. -/
structure CpalDevice where
  name : String
  has_input : Bool
  has_output : Bool
deriving DecidableEq

/-- The name de-duplication of `CpalBackend`: keep the first device of each
friendly name, in host enumeration order (`if seen.contains(&name) { continue; }`). -/
def dedupByName : List CpalDevice → List String → List CpalDevice
  | [], _ => []
  | d :: rest, seen =>
    if seen.contains d.name then dedupByName rest seen
    else d :: dedupByName rest (d.name :: seen)

/-- The two entries `CpalBackend::enumerate_devices` pushes per unique
name: Shared then Exclusive, no device id, capability flags from the default
configs. -/
def cpalDeviceEntries (d : CpalDevice) : List DeviceEntry :=
  [⟨d.name ++ " (SHARED)", none, .shared, d.has_input, d.has_output⟩,
   ⟨d.name ++ " (EXCLUSIVE)", none, .exclusive, d.has_input, d.has_output⟩]

/-- `CpalBackend::enumerate_devices`: two entries per unique friendly name,
sorted by entry name. -/
def cpalEnumerate (devs : List CpalDevice) : List DeviceEntry :=
  List.insertionSort entryLe ((dedupByName devs []).flatMap cpalDeviceEntries)

/-- The device `CpalBackend::start` operates on for a selected ordinal: the
devices vector is rebuilt from unique friendly names in host enumeration
order (not sorted), and `map_index` halves the ordinal
(`opt_idx.map(|i| i / 2)`). -/
def cpalResolvedDevice (devs : List CpalDevice) (ordinal : Nat) : Option CpalDevice :=
  (dedupByName devs [])[ordinal / 2]?

/-- An enumerated entry describes a physical cpal device when its display
name is that device's name under one of the two decorations. -/
def describesDevice (e : DeviceEntry) (d : CpalDevice) : Prop :=
  e.name = d.name ++ " (SHARED)" ∨ e.name = d.name ++ " (EXCLUSIVE)"

/-! Concrete fixtures used by witnesses and counterexamples. -/

/-- Gate trace with the gate true at frame-time 0 and toggled off before
frame-time 1. -/
def toggleOffAfterFirst : Nat → Bool :=
  fun t => t == 0

/-- A 2-channel 32-bit-float format at 48 kHz. -/
def fmtStd : FormatInfo :=
  ⟨2, 48000, 32, true⟩

/-- A 2-channel 32-bit-float format at 44.1 kHz. -/
def fmt441 : FormatInfo :=
  ⟨2, 44100, 32, true⟩

/-- One render endpoint and one capture endpoint; the microphone negotiates
48 kHz while the output negotiates 44.1 kHz. -/
def envRateMismatch : WasapiEnv :=
  ⟨[⟨"out", "Out"⟩], [⟨"mic", "Mic"⟩], fun id _ => if id = "mic" then some fmtStd else some fmt441⟩

/-- One render endpoint and one capture endpoint; the output opens fine but
opening the microphone fails. -/
def envInputOpenFails : WasapiEnv :=
  ⟨[⟨"out", "Out"⟩], [⟨"mic", "Mic"⟩], fun id _ => if id = "out" then some fmtStd else none⟩

/-- A capture-only device set: every enumerated entry has
`is_output = false`. -/
def envCaptureOnly : WasapiEnv :=
  ⟨[], [⟨"mic", "Mic"⟩], fun _ _ => some fmtStd⟩

/-- A single render endpoint, every open succeeding. -/
def envSingleOut : WasapiEnv :=
  ⟨[⟨"out", "Out"⟩], [], fun _ _ => some fmtStd⟩

/-- Two cpal devices whose host enumeration order ("B" before "A") is not
alphabetical. -/
def cpalDevsBA : List CpalDevice :=
  [⟨"B", true, true⟩, ⟨"A", true, true⟩]

/-- An exclusive-mode device rejecting every format query. -/
def devRejectAll : ExclusiveDevice :=
  ⟨⟨2, 96000, 32, true⟩, fun _ => .no⟩

/-- A one-frame non-silent capture packet with data under every view. -/
def pktProbe : Packet :=
  ⟨1, false, [1/2], [7], [9]⟩

/-! Helper lemmas (shared; not tied to a single claim). -/

theorem readFrame_false (n : Nat) (q : List Sample) :
    readFrame false n q = (List.replicate n 0, q.drop n) := by
  induction n generalizing q with
  | zero => rfl
  | succ n ih =>
    cases q with
    | nil => simp [readFrame, popSample, ih, List.replicate_succ]
    | cons x xs => simp [readFrame, popSample, ih, List.replicate_succ]

theorem chanContrib_replicate_zero (n ch : Nat) :
    chanContrib n (List.replicate n (0 : Sample)) ch = 0 := by
  unfold chanContrib
  split
  · rfl
  · split
    · simp [List.getD]
    · simp [List.getD]

theorem ratTrunc_le_of_le {q : Sample} {c : Int} (h : q ≤ (c : Sample)) :
    ratTrunc q ≤ c := by
  unfold ratTrunc
  split
  · exact_mod_cast le_trans (Int.floor_le q) h
  · exact Int.ceil_le.mpr h

theorem le_ratTrunc_of_le {q : Sample} {c : Int} (h : (c : Sample) ≤ q) :
    c ≤ ratTrunc q := by
  unfold ratTrunc
  split
  · exact Int.le_floor.mpr h
  · exact_mod_cast le_trans h (Int.le_ceil q)

theorem neg_one_le_clamp1 (x : Sample) : -1 ≤ clamp1 x :=
  le_max_left _ _

theorem clamp1_le_one (x : Sample) : clamp1 x ≤ 1 :=
  max_le (by norm_num) (min_le_left _ _)

theorem writeI16_eq_ratTrunc (x : Sample) :
    writeI16 x = ratTrunc (clamp1 x * 32767) := by
  unfold writeI16 rustCastI16
  have h1 : clamp1 x * 32767 ≤ ((32767 : Int) : Sample) := by
    have h := clamp1_le_one x
    push_cast
    nlinarith
  have h2 : ((-32767 : Int) : Sample) ≤ clamp1 x * 32767 := by
    have h := neg_one_le_clamp1 x
    push_cast
    nlinarith
  have t1 : ratTrunc (clamp1 x * 32767) ≤ 32767 := ratTrunc_le_of_le h1
  have t2 : (-32767 : Int) ≤ ratTrunc (clamp1 x * 32767) := le_ratTrunc_of_le h2
  rw [min_eq_right t1, max_eq_right (by omega)]

/-! Claim theorems. -/

/-- C2: for a frame rendered with input A's gate false, the render pipeline
still pops one sample per input channel from A's Transport (the queue loses
its first `nchA` samples), while A's contribution to every output channel of
the mixed frame is exactly zero (the frame equals input B's contribution
alone); likewise the cpal output callback still pops A's consumer once per
frame and writes only B's (possibly silenced) sample. -/
theorem C2_gate_off_drains_and_contributes_zero (useB : Bool) (nchA nchB outCh : Nat)
    (qA qB : List Sample) :
    (mixFrame false useB nchA nchB outCh qA qB).2.1 = qA.drop nchA
    ∧ (mixFrame false useB nchA nchB outCh qA qB).1 =
        (List.range outCh).map (fun ch => chanContrib nchB ((readFrame useB nchB qB).1) ch)
    ∧ (cpalMixFrame false useB outCh qA qB).2.1 = qA.drop 1
    ∧ (cpalMixFrame false useB outCh qA qB).1 =
        List.replicate outCh (0 + (if useB then ((popSample qB).1).getD 0 else 0)) := by
  refine ⟨?_, ?_, ?_, ?_⟩
  · simp [mixFrame, readFrame_false]
  · simp [mixFrame, readFrame_false, chanContrib_replicate_zero]
  · cases qA <;> simp [cpalMixFrame, popSample]
  · cases qA <;> simp [cpalMixFrame, popSample]

/-- C1 (amended): with both gates true and one channel per side, the mixed
sample the render thread writes in the 32-bit-float output format is exactly
`a + b` (the canonical float sum, before any format conversion), and in the
16-bit-integer output format the written sample is
`trunc(clamp(a + b, -1, 1) * 32767)` — truncation toward zero (the semantics
of Rust's `as i16` cast), not round-to-nearest as the original claim
stated. -/
theorem C1_mixed_sum_and_i16_truncation (a b : Sample) (r : Nat) :
    renderWritesWasapi ⟨1, r, 32, true⟩ true true 1 1 1 [a] [b]
      = (.wroteFloat [a + b], [], [], true)
    ∧ renderWritesWasapi ⟨1, r, 16, false⟩ true true 1 1 1 [a] [b]
      = (.wroteI16 [ratTrunc (clamp1 (a + b) * 32767)], [], [], true) := by
  constructor
  · simp [renderWritesWasapi, mixBufferFrames, mixFrame, readFrame, popSample, chanContrib,
      List.range_succ]
  · simp [renderWritesWasapi, mixBufferFrames, mixFrame, readFrame, popSample, chanContrib,
      List.range_succ, writeI16_eq_ratTrunc]

/-- C1 counterexample: at canonical inputs `a = 0.3`, `b = 0.4` with both
gates true, the 16-bit sample the code writes is `22936` (truncation of
`0.7 * 32767 = 22936.9`), while the claim's `round(clamp(0.7, -1, 1) * 32767)`
is `22937`; the written sample does not equal the claimed rounding. -/
theorem C1_round_counterexample :
    (renderWritesWasapi ⟨1, 48000, 16, false⟩ true true 1 1 1 [3/10] [4/10]).1
      = RenderWrite.wroteI16 [22936]
    ∧ round (clamp1 ((3 : Sample)/10 + 4/10) * 32767) = 22937
    ∧ (22936 : Int) ≠ 22937 := by
  have hc : clamp1 ((3 : Sample)/10 + 4/10) = 7/10 := by
    unfold clamp1
    rw [max_def, min_def]
    norm_num
  have hm : (7 : Sample)/10 * 32767 = 229369/10 := by norm_num
  have hw : writeI16 ((3 : Sample)/10 + 4/10) = 22936 := by
    unfold writeI16 rustCastI16 ratTrunc
    rw [hc, hm, if_pos (by norm_num : (0 : Sample) ≤ 229369/10),
      show ⌊(229369 : Sample)/10⌋ = 22936 from by rw [Int.floor_eq_iff]; norm_num,
      min_eq_right (by norm_num), max_eq_right (by norm_num)]
  refine ⟨?_, ?_, by decide⟩
  · simp [renderWritesWasapi, mixBufferFrames, mixFrame, readFrame, popSample, chanContrib,
      List.range_succ, hw]
  · rw [hc, hm, round_eq, Int.floor_eq_iff]; norm_num

/-- C3 counterexample: a two-frame device buffer, input A carrying the
constant sample 1, gate A true when the buffer processing begins and toggled
false before the second frame is mixed.  The code (which loads the gate once,
before the frame loop) mixes A into both frames, `[[1], [1]]`; per-frame
reads as the claim states would give `[[1], [0]]`.  The gate value used for
the second frame is not the gate's current value when that frame is
mixed. -/
theorem C3_gate_cached_counterexample :
    (renderIterWasapiGates toggleOffAfterFirst (fun _ => true) 0 1 1 1 2 [1, 1] []).1
      = [[1], [1]]
    ∧ (mixBufferPerFrameGates toggleOffAfterFirst (fun _ => true) 1 1 1 0 2 [1, 1] []).1
      = [[1], [0]]
    ∧ ([[1], [1]] : List (List Sample)) ≠ [[1], [0]] := by
  refine ⟨?_, ?_, ?_⟩
  · simp [renderIterWasapiGates, toggleOffAfterFirst, mixBufferFrames, mixFrame, readFrame,
      popSample, chanContrib, List.range_succ]
  · simp [mixBufferPerFrameGates, toggleOffAfterFirst, mixFrame, readFrame,
      popSample, chanContrib, List.range_succ]
  · intro h
    have h1 := congrArg (fun l => List.getD (List.getD l 1 []) 0 (0 : Sample)) h
    norm_num at h1

/-- C3 (amended): the render loop reads each gate once per buffer-fill
iteration, before the frame loop, and that single value governs every frame
of the buffer; consequently the per-frame-read semantics the spec asserts
holds exactly when neither gate changes during the buffer's frames, and a
toggle takes effect on the next buffer iteration the render thread begins,
not on the next frame within the current buffer. -/
theorem C3_gate_per_buffer (envA envB : Nat → Bool) (t0 nchA nchB outCh : Nat)
    (frames : Nat) (qA qB : List Sample)
    (hA : ∀ f, f < frames → envA (t0 + f) = envA t0)
    (hB : ∀ f, f < frames → envB (t0 + f) = envB t0) :
    renderIterWasapiGates envA envB t0 nchA nchB outCh frames qA qB =
      mixBufferPerFrameGates envA envB nchA nchB outCh t0 frames qA qB := by
  unfold renderIterWasapiGates
  induction frames generalizing t0 qA qB with
  | zero => rfl
  | succ n ih =>
    by_cases hn : n = 0
    · subst hn
      simp [mixBufferFrames, mixBufferPerFrameGates]
    · have eA : envA (t0 + 1) = envA t0 := hA 1 (by omega)
      have eB : envB (t0 + 1) = envB t0 := hB 1 (by omega)
      have hA1 : ∀ f, f < n → envA (t0 + 1 + f) = envA (t0 + 1) := by
        intro f hf
        rw [eA, show t0 + 1 + f = t0 + (1 + f) by omega]
        exact hA (1 + f) (by omega)
      have hB1 : ∀ f, f < n → envB (t0 + 1 + f) = envB (t0 + 1) := by
        intro f hf
        rw [eB, show t0 + 1 + f = t0 + (1 + f) by omega]
        exact hB (1 + f) (by omega)
      have key := fun (qA' qB' : List Sample) => ih (t0 + 1) qA' qB' hA1 hB1
      simp only [eA, eB] at key
      simp only [mixBufferFrames, mixBufferPerFrameGates, key]

/-- C3 witness: the amended theorem at a concrete instance whose gates are
constant across the buffer. -/
theorem C3_gate_per_buffer_witness :
    renderIterWasapiGates (fun _ => true) (fun _ => false) 5 1 1 1 2 [1, 1] [] =
      mixBufferPerFrameGates (fun _ => true) (fun _ => false) 1 1 1 5 2 [1, 1] [] :=
  C3_gate_per_buffer (fun _ => true) (fun _ => false) 5 1 1 1 2 [1, 1] []
    (fun _ _ => rfl) (fun _ _ => rfl)

/-- The candidate loop accepts exactly the first candidate of the list that
the device supports (as-is or via closest match), keeping the accepted
format; it fails only when no candidate is accepted. -/
theorem tryCandidates_eq_find (dev : ExclusiveDevice) (l : List FormatInfo) :
    tryCandidates dev l =
      (match l.find? (acceptsFmt dev) with
        | some c => NegotiationResult.negotiated (acceptedFormat dev c)
        | none => NegotiationResult.unsupported) := by
  induction l with
  | nil => rfl
  | cons c rest ih =>
    cases h : dev.supports c with
    | ok => simp [tryCandidates, h, List.find?_cons, acceptsFmt, acceptedFormat]
    | closest f => simp [tryCandidates, h, List.find?_cons, acceptsFmt, acceptedFormat]
    | no => simp [tryCandidates, h, List.find?_cons, acceptsFmt, ih]

/-- C6: exclusive-mode negotiation first tries the device's mix format
(as-is, then via closest match) and, if both are rejected, walks the fixed
candidate list with sample rates `[native, 48000, 44100]` as the outer loop
and `(32-bit float, 24-bit int, 16-bit int)` as the inner loop, channel count
fixed at the device's native count; the result is determined by the first
entry of `mix :: candidates` the device supports (as-is keeps the candidate,
closest-match keeps the returned format), and exhausting every candidate
yields the unsupported-format negotiation error. -/
theorem C6_exclusive_negotiation_order (dev : ExclusiveDevice)
    (h : dev.mix.channels ≠ 0) :
    exclusiveCandidates dev.mix =
      [⟨dev.mix.channels, dev.mix.sample_rate, 32, true⟩,
       ⟨dev.mix.channels, dev.mix.sample_rate, 24, false⟩,
       ⟨dev.mix.channels, dev.mix.sample_rate, 16, false⟩,
       ⟨dev.mix.channels, 48000, 32, true⟩,
       ⟨dev.mix.channels, 48000, 24, false⟩,
       ⟨dev.mix.channels, 48000, 16, false⟩,
       ⟨dev.mix.channels, 44100, 32, true⟩,
       ⟨dev.mix.channels, 44100, 24, false⟩,
       ⟨dev.mix.channels, 44100, 16, false⟩]
    ∧ openDeviceExclusiveFmt dev =
        (match (dev.mix :: exclusiveCandidates dev.mix).find? (acceptsFmt dev) with
          | some c => NegotiationResult.negotiated (acceptedFormat dev c)
          | none => NegotiationResult.unsupported) := by
  constructor
  · have h4 : 4 * dev.mix.channels ≠ 0 := by omega
    have h3 : 3 * dev.mix.channels ≠ 0 := by omega
    have h2 : 2 * dev.mix.channels ≠ 0 := by omega
    simp [exclusiveCandidates, h4, h3, h2, h]
  · cases hm : dev.supports dev.mix with
    | ok =>
      simp [openDeviceExclusiveFmt, hm, List.find?_cons, acceptsFmt, acceptedFormat]
    | closest f =>
      simp [openDeviceExclusiveFmt, hm, List.find?_cons, acceptsFmt, acceptedFormat]
    | no =>
      simp [openDeviceExclusiveFmt, hm, List.find?_cons, acceptsFmt,
        tryCandidates_eq_find]

/-- C6 witness: the negotiation-order theorem at a concrete stereo device
whose native rate is 96 kHz and which rejects every query: the candidate list
is the nine formats in the claimed order and the result is the
unsupported-format error. -/
theorem C6_exclusive_negotiation_order_witness :
    exclusiveCandidates devRejectAll.mix =
      [⟨devRejectAll.mix.channels, devRejectAll.mix.sample_rate, 32, true⟩,
       ⟨devRejectAll.mix.channels, devRejectAll.mix.sample_rate, 24, false⟩,
       ⟨devRejectAll.mix.channels, devRejectAll.mix.sample_rate, 16, false⟩,
       ⟨devRejectAll.mix.channels, 48000, 32, true⟩,
       ⟨devRejectAll.mix.channels, 48000, 24, false⟩,
       ⟨devRejectAll.mix.channels, 48000, 16, false⟩,
       ⟨devRejectAll.mix.channels, 44100, 32, true⟩,
       ⟨devRejectAll.mix.channels, 44100, 24, false⟩,
       ⟨devRejectAll.mix.channels, 44100, 16, false⟩]
    ∧ openDeviceExclusiveFmt devRejectAll =
        (match (devRejectAll.mix :: exclusiveCandidates devRejectAll.mix).find?
            (acceptsFmt devRejectAll) with
          | some c => NegotiationResult.negotiated (acceptedFormat devRejectAll c)
          | none => NegotiationResult.unsupported) :=
  C6_exclusive_negotiation_order devRejectAll (by decide)

/-- C10: when the negotiated format is none of 32-bit float, 16-bit int or
32-bit int — for instance the 24-bit-int format the exclusive-mode fallback
ladder contains — the capture thread pushes no samples for any non-silent
packet, and the render thread writes nothing into the device buffer (leaving
both consumers untouched) while still releasing the buffer; neither path
reports an error. -/
theorem C10_unsupported_format_dropped (fmt : FormatInfo)
    (h1 : ¬(fmt.is_float = true ∧ fmt.bits_per_sample = 32))
    (h2 : ¬(fmt.is_float = false ∧ fmt.bits_per_sample = 16))
    (h3 : ¬(fmt.is_float = false ∧ fmt.bits_per_sample = 32)) :
    (∀ p : Packet, p.silent = false → capturePushes fmt p = [])
    ∧ (∀ (useA useB : Bool) (nchA nchB frames : Nat) (qA qB : List Sample),
        renderWritesWasapi fmt useA useB nchA nchB frames qA qB = (.wroteNothing, qA, qB, true))
    ∧ (∀ mix : FormatInfo, mix.channels ≠ 0 →
        FormatInfo.mk mix.channels 48000 24 false ∈ exclusiveCandidates mix) := by
  have hcond : ∀ x : Bool, ∀ n : Nat, fmt.is_float = x → fmt.bits_per_sample = n →
      (x && n == 32) = false ∧ (!x && n == 16) = false ∧ (!x && n == 32) = false := by
    intro x n hx hn
    cases x with
    | true =>
      have : n ≠ 32 := fun hc => h1 ⟨hx, hn ▸ hc ▸ rfl⟩
      simp [this]
    | false =>
      have hn16 : n ≠ 16 := fun hc => h2 ⟨hx, hn ▸ hc ▸ rfl⟩
      have hn32 : n ≠ 32 := fun hc => h3 ⟨hx, hn ▸ hc ▸ rfl⟩
      simp [hn16, hn32]
    
  obtain ⟨c1, c2, c3⟩ := hcond fmt.is_float fmt.bits_per_sample rfl rfl
  refine ⟨?_, ?_, ?_⟩
  · intro p hp
    simp [capturePushes, hp, c1, c2, c3]
  · intro useA useB nchA nchB frames qA qB
    simp [renderWritesWasapi, c1, c2, c3]
  · intro mix hch
    refine List.mem_filter.mpr ⟨?_, ?_⟩
    · refine List.mem_flatMap.mpr ⟨48000, by simp, ?_⟩
      simp
    · simp
      omega

theorem getEntry_error {entries : List DeviceEntry} {x : Option Nat} {e : StartErr}
    (h : getEntry entries x = .error e) : e = .indexOutOfRange := by
  cases x with
  | none => simp [getEntry] at h
  | some i =>
    cases hg : entries[i]? with
    | none =>
      simp [getEntry, hg] at h
      exact h.symm
    | some d => simp [getEntry, hg] at h

theorem openOptInput_error {env : WasapiEnv} {id? : Option String} {mode : Mode} {e : StartErr}
    (h : openOptInput env id? mode = .error e) : ∃ id, e = .openFailed id := by
  cases id? with
  | none => simp [openOptInput] at h
  | some id =>
    cases hn : env.negotiate id mode with
    | none =>
      simp [openOptInput, hn] at h
      exact ⟨id, h.symm⟩
    | some f => simp [openOptInput, hn] at h

theorem openOptInput_ok_trace {env : WasapiEnv} {id? : Option String} {mode : Mode}
    {f? : Option FormatInfo} {tr : List Event}
    (h : openOptInput env id? mode = .ok (f?, tr)) :
    tr = [] ∨ ∃ id, tr = [Event.opened id] := by
  cases id? with
  | none =>
    simp [openOptInput] at h
    left
    exact h.2
  | some id =>
    cases hn : env.negotiate id mode with
    | none => simp [openOptInput, hn] at h
    | some f =>
      simp [openOptInput, hn] at h
      right
      exact ⟨id, h.2.symm⟩

theorem openTrace_counts {tr : List Event} (h : tr = [] ∨ ∃ id, tr = [Event.opened id]) :
    tr.countP isTransportAlloc = 0 ∧ tr.countP isThreadSpawn = 0
      ∧ tr.countP isReleasedClient = 0 := by
  rcases h with rfl | ⟨id, rfl⟩ <;>
    simp [isTransportAlloc, isThreadSpawn, isReleasedClient, List.countP_cons]

/-- C4 (amended): a rate-mismatch failure of `start` aborts before any
Transport is allocated and before any pipeline thread is spawned (the trace
contains zero such events), and the last action before returning is the
release of the output's audio client.  The mismatch is, however, detected
after the devices are opened — negotiation must run to learn the rates — not
before, as the counterexample shows. -/
theorem C4_rate_mismatch_stops_before_pipeline (env : WasapiEnv)
    (a b o : Option Nat) (w : InputSel) (r1 r2 : Nat) (tr : List Event)
    (h : startWasapi env a b o = (.error (.rateMismatch w r1 r2), tr)) :
    tr.countP isTransportAlloc = 0 ∧ tr.countP isThreadSpawn = 0
      ∧ ∃ oid, tr.getLast? = some (Event.releasedClient oid) := by
  simp only [startWasapi] at h
  cases hga : getEntry (wasapiEnumerate env) a with
  | error e1 =>
    simp only [hga] at h
    obtain rfl := getEntry_error hga
    injection h with h1 h2
    simp at h1
  | ok inA =>
  simp only [hga] at h
  cases hgb : getEntry (wasapiEnumerate env) b with
  | error e1 =>
    simp only [hgb] at h
    obtain rfl := getEntry_error hgb
    injection h with h1 h2
    simp at h1
  | ok inB =>
  simp only [hgb] at h
  cases hgo : getEntry (wasapiEnumerate env) o with
  | error e1 =>
    simp only [hgo] at h
    obtain rfl := getEntry_error hgo
    injection h with h1 h2
    simp at h1
  | ok oe =>
  simp only [hgo] at h
  cases oe with
  | none =>
    injection h with h1 h2
    simp at h1
  | some outEntry =>
  cases hdid : outEntry.device_id with
  | none =>
    simp only [hdid] at h
    injection h with h1 h2
    simp at h1
  | some outId =>
  simp only [hdid] at h
  cases hneg : env.negotiate outId outEntry.mode with
  | none =>
    simp only [hneg] at h
    injection h with h1 h2
    simp at h1
  | some outFmt =>
  simp only [hneg] at h
  cases hoaA : openOptInput env (inA.bind fun e => e.device_id)
      ((inA.map fun e => e.mode).getD .exclusive) with
  | error e1 =>
    simp only [hoaA] at h
    obtain ⟨id1, rfl⟩ := openOptInput_error hoaA
    injection h with h1 h2
    simp at h1
  | ok pA =>
  cases pA with
  | mk fmtA? trA =>
  simp only [hoaA] at h
  cases hoaB : openOptInput env (inB.bind fun e => e.device_id)
      ((inB.map fun e => e.mode).getD .exclusive) with
  | error e1 =>
    simp only [hoaB] at h
    obtain ⟨id1, rfl⟩ := openOptInput_error hoaB
    injection h with h1 h2
    simp at h1
  | ok pB =>
  cases pB with
  | mk fmtB? trB =>
  simp only [hoaB] at h
  obtain ⟨cA1, cA2, cA3⟩ := openTrace_counts (openOptInput_ok_trace hoaA)
  obtain ⟨cB1, cB2, cB3⟩ := openTrace_counts (openOptInput_ok_trace hoaB)
  cases hrcA : rateCheck outFmt.sample_rate .A fmtA? with
  | some e1 =>
    simp only [hrcA] at h
    injection h with h1 h2
    subst h2
    refine ⟨?_, ?_, outId, ?_⟩
    · simp [List.countP_append, cA1, cB1, isTransportAlloc]
    · simp [List.countP_append, cA2, cB2, isThreadSpawn]
    · exact List.getLast?_concat _
  | none =>
  simp only [hrcA] at h
  cases hrcB : rateCheck outFmt.sample_rate .B fmtB? with
  | some e1 =>
    simp only [hrcB] at h
    injection h with h1 h2
    subst h2
    refine ⟨?_, ?_, outId, ?_⟩
    · simp [List.countP_append, cA1, cB1, isTransportAlloc]
    · simp [List.countP_append, cA2, cB2, isThreadSpawn]
    · exact List.getLast?_concat _
  | none =>
  simp only [hrcB] at h
  injection h with h1 h2
  simp at h1

/-- C4 counterexample: with input A negotiating 48 kHz and the output
44.1 kHz, `start` does return the rate-mismatch error naming input A with
both rates, but only after opening both devices: the trace at the failure
contains two `opened` events, refuting the claim's "rejected before any
device is opened". -/
theorem C4_opens_before_rate_check_counterexample :
    startWasapi envRateMismatch (some 1) none (some 3)
      = (.error (.rateMismatch .A 48000 44100),
          [Event.opened "out", Event.opened "mic", Event.releasedClient "out"])
    ∧ [Event.opened "out", Event.opened "mic",
        Event.releasedClient "out"].countP isOpened ≠ 0 := by
  constructor
  · simp +decide [startWasapi, wasapiEnumerate, enumFlowDevices, deviceEntries, envRateMismatch,
      fmtStd, fmt441, List.insertionSort, List.orderedInsert, entryLe, getEntry,
      openOptInput, rateCheck]
  · decide

/-- C4 witness: the amended theorem applied to the concrete rate-mismatch
run. -/
theorem C4_rate_mismatch_stops_before_pipeline_witness :
    ([Event.opened "out", Event.opened "mic",
        Event.releasedClient "out"].countP isTransportAlloc = 0)
    ∧ ([Event.opened "out", Event.opened "mic",
        Event.releasedClient "out"].countP isThreadSpawn = 0)
    ∧ ∃ oid, [Event.opened "out", Event.opened "mic",
        Event.releasedClient "out"].getLast? = some (Event.releasedClient oid) :=
  C4_rate_mismatch_stops_before_pipeline envRateMismatch (some 1) none (some 3)
    .A 48000 44100 _
    (by
      simp +decide [startWasapi, wasapiEnumerate, enumFlowDevices, deviceEntries, envRateMismatch,
        fmtStd, fmt441, List.insertionSort, List.orderedInsert, entryLe, getEntry,
        openOptInput, rateCheck])

/-- C5: evaluating `start` on a run where the output opens successfully and
input A's open then fails: the code propagates the input-open error with `?`
and returns with the output's audio client opened (one `opened` event) and
never released (zero `releasedClient` events) — the cleanup the claim
describes does not happen on this path. -/
theorem C5_input_open_failure_leaks_output :
    startWasapi envInputOpenFails (some 1) none (some 3)
      = (.error (.openFailed "mic"), [Event.opened "out"])
    ∧ [Event.opened "out"].countP isOpened = 1
    ∧ [Event.opened "out"].countP isReleasedClient = 0 := by
  refine ⟨?_, by decide, by decide⟩
  simp +decide [startWasapi, wasapiEnumerate, enumFlowDevices, deviceEntries, envInputOpenFails,
    fmtStd, List.insertionSort, List.orderedInsert, entryLe, getEntry,
    openOptInput, rateCheck]

theorem enumFlowDevices_length (devs : List PhysDevice) (i o : Bool) :
    (enumFlowDevices devs i o).length = 2 * devs.length := by
  induction devs with
  | nil => rfl
  | cons d rest ih =>
    simp [enumFlowDevices, deviceEntries] at ih ⊢
    omega

theorem mem_enumFlowDevices {d : PhysDevice} {devs : List PhysDevice} (hd : d ∈ devs)
    (i o : Bool) :
    (⟨d.friendly ++ " (SHARED)", some d.id, .shared, i, o⟩ : DeviceEntry)
        ∈ enumFlowDevices devs i o
    ∧ (⟨d.friendly ++ " (EXCLUSIVE)", some d.id, .exclusive, i, o⟩ : DeviceEntry)
        ∈ enumFlowDevices devs i o := by
  constructor
  · exact List.mem_flatMap.mpr ⟨d, hd, by simp [deviceEntries]⟩
  · exact List.mem_flatMap.mpr ⟨d, hd, by simp [deviceEntries]⟩

/-- C7: for every device set, `enumerate_devices` yields a permutation of the
raw emission (one Shared entry then one Exclusive entry per physical device,
render devices then capture devices), so exactly two entries per device; for
every physical device, both its entries are present, carrying the same
underlying identifier and the same capability flags, with display names
suffixed `(SHARED)` and `(EXCLUSIVE)`; and the returned sequence is sorted by
display name. -/
theorem C7_two_entries_per_device_sorted (env : WasapiEnv) :
    (wasapiEnumerate env).Perm
        (enumFlowDevices env.renderDevices false true
          ++ enumFlowDevices env.captureDevices true false)
    ∧ (wasapiEnumerate env).length
        = 2 * (env.renderDevices.length + env.captureDevices.length)
    ∧ List.Sorted entryLe (wasapiEnumerate env)
    ∧ (∀ d ∈ env.renderDevices,
        (⟨d.friendly ++ " (SHARED)", some d.id, .shared, false, true⟩ : DeviceEntry)
            ∈ wasapiEnumerate env
        ∧ (⟨d.friendly ++ " (EXCLUSIVE)", some d.id, .exclusive, false, true⟩ : DeviceEntry)
            ∈ wasapiEnumerate env)
    ∧ (∀ d ∈ env.captureDevices,
        (⟨d.friendly ++ " (SHARED)", some d.id, .shared, true, false⟩ : DeviceEntry)
            ∈ wasapiEnumerate env
        ∧ (⟨d.friendly ++ " (EXCLUSIVE)", some d.id, .exclusive, true, false⟩ : DeviceEntry)
            ∈ wasapiEnumerate env) := by
  have hperm : (wasapiEnumerate env).Perm
      (enumFlowDevices env.renderDevices false true
        ++ enumFlowDevices env.captureDevices true false) :=
    List.perm_insertionSort entryLe _
  refine ⟨hperm, ?_, ?_, ?_, ?_⟩
  · rw [hperm.length_eq, List.length_append, enumFlowDevices_length,
      enumFlowDevices_length]
    omega
  · exact List.sorted_insertionSort entryLe _
  · intro d hd
    have hm := mem_enumFlowDevices hd false true
    exact ⟨hperm.mem_iff.mpr (List.mem_append_left _ hm.1),
      hperm.mem_iff.mpr (List.mem_append_left _ hm.2)⟩
  · intro d hd
    have hm := mem_enumFlowDevices hd true false
    exact ⟨hperm.mem_iff.mpr (List.mem_append_right _ hm.1),
      hperm.mem_iff.mpr (List.mem_append_right _ hm.2)⟩

/-- C7 witness: the enumeration-shape theorem instantiated at the one-device
environment, with the membership part applied to its concrete device. -/
theorem C7_two_entries_per_device_sorted_witness :
    (⟨"Out" ++ " (SHARED)", some "out", .shared, false, true⟩ : DeviceEntry)
        ∈ wasapiEnumerate envSingleOut
    ∧ (⟨"Out" ++ " (EXCLUSIVE)", some "out", .exclusive, false, true⟩ : DeviceEntry)
        ∈ wasapiEnumerate envSingleOut :=
  (C7_two_entries_per_device_sorted envSingleOut).2.2.2.1 ⟨"out", "Out"⟩
    (by simp [envSingleOut])

/-- C8 (amended): `start` fails when the output ordinal is absent (`None`)
or out of range of the freshly enumerated list; no output-capability check
exists — the counterexample shows an ordinal resolving to an input-only
entry being accepted. -/
theorem C8_output_ordinal_range_check_only (env : WasapiEnv) (i : Nat)
    (hi : (wasapiEnumerate env).length ≤ i) :
    (startWasapi env none none (some i)).1 = .error .indexOutOfRange
    ∧ (startWasapi env none none none).1 = .error .noOutputSelected := by
  constructor
  · have hg : (wasapiEnumerate env)[i]? = none := by
      rw [List.getElem?_eq_none_iff]
      exact hi
    simp [startWasapi, getEntry, hg]
  · simp [startWasapi, getEntry]

/-- C8 witness: the range-check theorem at the two-entry environment with
ordinal 5. -/
theorem C8_output_ordinal_range_check_only_witness :
    (startWasapi envSingleOut none none (some 5)).1 = .error .indexOutOfRange
    ∧ (startWasapi envSingleOut none none none).1 = .error .noOutputSelected :=
  C8_output_ordinal_range_check_only envSingleOut 5
    (by
      rw [wasapiEnumerate, (List.perm_insertionSort entryLe _).length_eq]
      simp [enumFlowDevices, deviceEntries, envSingleOut])

/-- C8 counterexample: in a capture-only device set, ordinal 0 resolves to an
entry with `is_output = false`, yet `start` accepts it and returns success —
no error is raised for an output ordinal without output capability. -/
theorem C8_no_output_capability_check_counterexample :
    ((wasapiEnumerate envCaptureOnly)[0]?).map (fun e => e.is_output) = some false
    ∧ (startWasapi envCaptureOnly none none (some 0)).1 = .ok () := by
  constructor
  · simp +decide [wasapiEnumerate, enumFlowDevices, deviceEntries, envCaptureOnly,
      List.insertionSort, List.orderedInsert, entryLe]
  · simp +decide [startWasapi, wasapiEnumerate, enumFlowDevices, deviceEntries, envCaptureOnly,
      fmtStd, List.insertionSort, List.orderedInsert, entryLe, getEntry,
      openOptInput, rateCheck]

/-- C9 (amended): in the WASAPI backend the ordinal does select the entry at
that position of the freshly enumerated, sorted descriptor sequence: when the
entry at ordinal `i` carries device id `id` and its negotiation succeeds, the
first device `start` opens is exactly that id (and the run proceeds on it).
The cpal backend does not satisfy this — see the counterexample. -/
theorem C9_wasapi_ordinal_selects_sorted_entry (env : WasapiEnv) (i : Nat)
    (e : DeviceEntry) (id : String) (f : FormatInfo)
    (he : (wasapiEnumerate env)[i]? = some e)
    (hid : e.device_id = some id)
    (hn : env.negotiate id e.mode = some f) :
    (startWasapi env none none (some i)).2.head? = some (Event.opened id) := by
  simp [startWasapi, getEntry, he, hid, hn, openOptInput, rateCheck]

/-- C9 witness: the WASAPI ordinal theorem at the one-device environment,
ordinal 0 (the `Out (EXCLUSIVE)` entry). -/
theorem C9_wasapi_ordinal_selects_sorted_entry_witness :
    (startWasapi envSingleOut none none (some 0)).2.head? = some (Event.opened "out") :=
  C9_wasapi_ordinal_selects_sorted_entry envSingleOut 0
    ⟨"Out (EXCLUSIVE)", some "out", .exclusive, false, true⟩ "out" fmtStd
    (by
      simp +decide [wasapiEnumerate, enumFlowDevices, deviceEntries, envSingleOut,
        List.insertionSort, List.orderedInsert, entryLe])
    rfl
    rfl

/-- C9 counterexample: two cpal devices enumerated by the host as "B" then
"A".  The sorted descriptor sequence puts `A (EXCLUSIVE)` at ordinal 0, but
`CpalBackend::start` maps ordinal 0 to `devices[0 / 2] = devices[0]`, the
device named "B" — a different physical device than the one the ordinal's
descriptor describes. -/
theorem C9_cpal_ordinal_mismatch_counterexample :
    (cpalEnumerate cpalDevsBA)[0]?
      = some ⟨"A" ++ " (EXCLUSIVE)", none, .exclusive, true, true⟩
    ∧ cpalResolvedDevice cpalDevsBA 0 = some ⟨"B", true, true⟩
    ∧ ¬ describesDevice ⟨"A" ++ " (EXCLUSIVE)", none, .exclusive, true, true⟩
        ⟨"B", true, true⟩ := by
  refine ⟨?_, ?_, ?_⟩
  · simp +decide [cpalEnumerate, dedupByName, cpalDevsBA, cpalDeviceEntries,
      List.insertionSort, List.orderedInsert, entryLe]
  · simp +decide [cpalResolvedDevice, dedupByName, cpalDevsBA]
  · intro h
    rcases h with h | h <;> revert h <;> decide

/-- C10 witness: the dropped-format theorem applied at the 24-bit integer
format, with a concrete non-silent packet, a concrete render call, and the
candidate-membership fact at a concrete mix format. -/
theorem C10_unsupported_format_dropped_witness :
    capturePushes ⟨2, 48000, 24, false⟩ pktProbe = []
    ∧ renderWritesWasapi ⟨2, 48000, 24, false⟩ true true 1 1 4 [1] []
        = (.wroteNothing, [1], [], true)
    ∧ FormatInfo.mk 2 48000 24 false ∈ exclusiveCandidates ⟨2, 96000, 32, true⟩ := by
  obtain ⟨hc, hr, hm⟩ := C10_unsupported_format_dropped ⟨2, 48000, 24, false⟩
    (by decide) (by decide) (by decide)
  exact ⟨hc pktProbe rfl, hr true true 1 1 4 [1] [], hm ⟨2, 96000, 32, true⟩ (by decide)⟩

end ExternalCue
